import Mathlib

/-
Verification of the Auto DMS backend (src/main.py, src/schemas.py).

The service keeps its state in a document database with one collection per
record type.  We embed the state as association lists from numeric document
identifiers to records, and each HTTP handler that the claims mention as a
function from the database state (plus the request payload) to a result
together with the new database state, mirroring the statement order of the
Python handler so that an error raised part-way keeps exactly the writes
performed before it.

Currency amounts are embedded as exact rationals; the source's `round(x, 2)`
(the platform default, round half to even on the scaled value) is embedded as
`round2` below.
-/

namespace DMS

/-- Error taxonomy of the service: HTTP 400 / 404 / 409 with a detail string. -/
inductive Err where
  | invalidInput : String → Err
  | notFound : String → Err
  | conflict : String → Err
deriving DecidableEq

/-- Floor of a rational as an integer, via flooring integer division. -/
def ratFloor (x : Rat) : Int := Int.fdiv x.num x.den

/-- Round a scaled value to the nearest integer, ties to even (the platform
default rounding used by the source's `round`). -/
def roundHalfEven (x : Rat) : Int :=
  let n : Int := ratFloor x
  let f : Rat := x - (n : Rat)
  if f < 1/2 then n
  else if 1/2 < f then n + 1
  else if n % 2 = 0 then n else n + 1

/-- The source's `round(x, 2)`: round to two decimal places. -/
def round2 (x : Rat) : Rat := ((roundHalfEven (x * 100) : Int) : Rat) / 100

/-- Document identifiers (opaque tokens in the source; numbers here). -/
abbrev Id := Nat

/-- Vehicle record, src/schemas.py `Vehicle`.  The status field is written as a
raw string by the handlers (`$set` on the stored document), so it is a plain
string here; the schema default is "in_stock". -/
structure Vehicle where
  vin : String
  make : Option String
  model : Option String
  year : Option Int
  color : Option String
  mileage : Option Int
  location : Option String
  status : String
  owner_customer_id : Option Id
  purchase_vendor_id : Option Id
deriving DecidableEq

/-- Part record, src/schemas.py `Part`. -/
structure Part where
  sku : String
  name : String
  make : Option String
  model_compatibility : List String
  bin_location : Option String
  cost : Rat
  price : Rat
  stock : Int
  uom : String
deriving DecidableEq

/-- Technician record, src/schemas.py `Technician`.  The capacity attribute is
not declared in the schema; the handlers read it off the stored document with
`tech.get("capacity", 3)`, so it is an optional field here. -/
structure Technician where
  name : String
  code : Option String
  skills : List String
  is_available : Bool
  capacity : Option Int
deriving DecidableEq

/-- Labor line embedded in a job card, src/schemas.py `LaborItem`. -/
structure LaborItem where
  code : String
  description : String
  flat_hours : Rat
  rate : Rat
  discount : Rat
deriving DecidableEq

/-- Part line embedded in a job card or parts request, src/schemas.py `PartItem`. -/
structure PartItem where
  part_id : Id
  name : Option String
  quantity : Int
  price : Rat
  discount : Rat
deriving DecidableEq

/-- Material line embedded in a job card, src/schemas.py `MaterialItem`. -/
structure MaterialItem where
  description : String
  cost : Rat
deriving DecidableEq

/-- Outside-work line embedded in a job card, src/schemas.py `OutsideWorkItem`. -/
structure OutsideWorkItem where
  description : String
  vendor_id : Option Id
  cost : Rat
deriving DecidableEq

/-- Parts request record, src/schemas.py `PartsRequest`.  Status strings are
written unchecked by the status handler, so status is a plain string. -/
structure PartsRequest where
  job_card_id : Id
  items : List PartItem
  status : String
deriving DecidableEq

/-- Job card record, src/schemas.py `JobCard`.  `primary_technician_id` is not
in the schema; the assign handler `$set`s it on the stored document, so it is
an optional field here. -/
structure JobCard where
  vehicle_id : Id
  customer_id : Id
  advisor_id : Option Id
  technician_ids : List Id
  complaint_notes : Option String
  check_notes : Option String
  labor : List LaborItem
  parts : List PartItem
  materials : List MaterialItem
  outside : List OutsideWorkItem
  status : String
  vat_rate : Rat
  primary_technician_id : Option Id
deriving DecidableEq

/-- Invoice / quotation line item, src/schemas.py `QuotationItem`. -/
structure QuotationItem where
  item_type : String
  ref_id : Option Id
  description : Option String
  quantity : Int
  unit_price : Rat
  discount : Rat
deriving DecidableEq

/-- Modelled from the spec: the `Payment` record (method, amount, optional
reference string) is imported and used by src/main.py but is not declared in
src/schemas.py; its fields follow spec section 3. -/
structure Payment where
  method : String
  amount : Rat
  reference : Option String
deriving DecidableEq

/-- Invoice record, src/schemas.py `Invoice`.  `method`, `payments` and
`paid_at` are absent until the pay handler `$set`s them on the stored
document, so they are optional fields defaulting to none; `vat_rate` is read
off the stored document with `d.get("vat_rate", 0.15)` and is optional here. -/
structure Invoice where
  source : String
  source_id : Option Id
  customer_id : Id
  items : List QuotationItem
  vat_rate : Option Rat
  status : String
  cashier_id : Option Id
  method : Option String
  payments : Option (List Payment)
  paid_at : Option Nat
deriving DecidableEq

/-- Inventory movement record, src/schemas.py `InventoryMovement`. -/
structure InventoryMovement where
  part_id : Id
  movement_type : String
  quantity : Int
  reference : Option Id
  note : Option String
deriving DecidableEq

/-- Database state: one association list per collection the claims touch.
Customers are consulted only for existence, so only their identifiers are
kept.  `nextId` models the fresh identifier assigned on insert. -/
structure DB where
  customers : List Id
  vehicles : List (Id × Vehicle)
  parts : List (Id × Part)
  technicians : List (Id × Technician)
  jobcards : List (Id × JobCard)
  partsrequests : List (Id × PartsRequest)
  invoices : List (Id × Invoice)
  movements : List InventoryMovement
  nextId : Id
deriving DecidableEq

/-- The database driver's `find_one({"_id": i})`: first record with the key. -/
def findAssoc {α : Type} (l : List (Id × α)) (i : Id) : Option α :=
  (l.find? (fun p => p.1 == i)).map (fun p => p.2)

/-- The database driver's `update_one({"_id": i}, ...)`: rewrite the record
stored under the key, no effect when the key is absent. -/
def updateAssoc {α : Type} (l : List (Id × α)) (i : Id) (f : α → α) : List (Id × α) :=
  l.map (fun p => if p.1 == i then (p.1, f p.2) else p)

/-- Modelled from the spec: the persistence layer's `create_document`
(database.py is not under src/) validates and inserts a record into a
collection and returns a fresh identifier. -/
def insertDoc {α : Type} (l : List (Id × α)) (i : Id) (x : α) : List (Id × α) :=
  l ++ [(i, x)]

/-- Truth test on an Except result: success. -/
def resultOkB {α : Type} : Except Err α → Bool
  | .ok _ => true
  | .error _ => false

/-- Truth test on an Except result: failed with InvalidInput (HTTP 400). -/
def resultInvalidB {α : Type} : Except Err α → Bool
  | .error (.invalidInput _) => true
  | _ => false

/-- Truth test on an Except result: failed with Conflict (HTTP 409). -/
def resultConflictB {α : Type} : Except Err α → Bool
  | .error (.conflict _) => true
  | _ => false

/-- Characters of a string, lower-cased, for the driver's case-insensitive
regex matching. -/
def lowerChars (s : String) : List Char := s.toLower.toList

/-- Whether the second list is an initial segment of the first. -/
def listStartsWith : List Char → List Char → Bool
  | _, [] => true
  | [], _ :: _ => false
  | a :: as, b :: bs => (a == b) && listStartsWith as bs

/-- Whether the second list occurs contiguously inside the first. -/
def listHasSub : List Char → List Char → Bool
  | [], q => q.isEmpty
  | a :: rest, q => listStartsWith (a :: rest) q || listHasSub rest q

/-- The driver's `{"$regex": q, "$options": "i"}` on a plain (metacharacter
free) query: case-insensitive substring containment of q in s. -/
def ciContains (s q : String) : Bool := listHasSub (lowerChars s) (lowerChars q)

/-- Regex match against an optional stored field: an absent field matches
nothing. -/
def optMatch (q : String) (o : Option String) : Bool :=
  match o with
  | some s => ciContains s q
  | none => false

-- --------------------------- Vehicles (src/main.py 160-185) ---------------------------

/-- Request body of POST /api/vehicles, src/main.py `VehicleCreate`. -/
structure VehicleCreate where
  vin : String
  make : Option String
  model : Option String
  year : Option Int
  color : Option String
  mileage : Option Int
  location : Option String
  owner_customer_id : Option Id
  purchase_vendor_id : Option Id
deriving DecidableEq

/-- The Vehicle record built by `register_vehicle` (src/main.py 165-169):
all supplied fields carried over, status at its schema default "in_stock". -/
def vehicleOf (v : VehicleCreate) : Vehicle :=
  { vin := v.vin, make := v.make, model := v.model, year := v.year,
    color := v.color, mileage := v.mileage, location := v.location,
    status := "in_stock", owner_customer_id := v.owner_customer_id,
    purchase_vendor_id := v.purchase_vendor_id }

/-- src/main.py `register_vehicle` (lines 160-171): reject when a vehicle with
exactly the same VIN exists (`find_one({"vin": v.vin})`, an exact
case-sensitive match), else insert the vehicle with schema-default status
"in_stock". -/
def register_vehicle (db : DB) (v : VehicleCreate) : Except Err Id × DB :=
  if (db.vehicles.find? (fun p => p.2.vin == v.vin)).isSome then
    (.error (.conflict "VIN already registered"), db)
  else
    (.ok db.nextId,
      { db with
          vehicles := insertDoc db.vehicles db.nextId (vehicleOf v),
          nextId := db.nextId + 1 })

/-- Match predicate of GET /api/vehicles: case-insensitive substring OR-match
across vin, make, model, color (src/main.py 176-183). -/
def vehicleMatch (q : String) (v : Vehicle) : Bool :=
  ciContains v.vin q || optMatch q v.make || optMatch q v.model || optMatch q v.color

/-- src/main.py `search_vehicles` (lines 174-185): optional query, capped at
100 results. -/
def search_vehicles (db : DB) (q : Option String) : List (Id × Vehicle) :=
  match q with
  | none => db.vehicles.take 100
  | some qs => (db.vehicles.filter (fun p => vehicleMatch qs p.2)).take 100

-- ------------------ Job cards and technician capacity (src/main.py 241-314) ------------------

/-- The open-like job card statuses used by every capacity count. -/
def openStatuses : List String := ["open", "in_progress", "waiting_parts"]

/-- `count_documents({"status": {"$in": [...]}, "technician_ids": {"$in": [tid]}})`
(src/main.py 255-258). -/
def openJobsCount (db : DB) (tid : Id) : Nat :=
  (db.jobcards.filter
    (fun p => openStatuses.contains p.2.status && p.2.technician_ids.contains tid)).length

/-- The same count with `"_id": {"$ne": excl}` (src/main.py 300-304). -/
def openJobsCountExcl (db : DB) (excl : Id) (tid : Id) : Nat :=
  (db.jobcards.filter
    (fun p => (p.1 != excl) && openStatuses.contains p.2.status
      && p.2.technician_ids.contains tid)).length

/-- Effective capacity: `int(tech.get("capacity", 3))`. -/
def capOf (t : Technician) : Int := t.capacity.getD 3

/-- One iteration of the capacity loop for one technician id, parametrized by
the count in force (creation counts all open jobs, reassignment excludes the
job card being modified). -/
def techCheck (db : DB) (countOf : Id → Nat) (tid : Id) : Option Err :=
  match findAssoc db.technicians tid with
  | none => some (.notFound ("Technician not found: " ++ toString tid))
  | some t =>
    if capOf t ≤ (countOf tid : Int) then
      some (.conflict ("Technician at capacity: " ++ t.name))
    else none

/-- The capacity loop over a technician id list: first failure wins. -/
def checkTechs (db : DB) (countOf : Id → Nat) (ids : List Id) : Option Err :=
  ids.findSome? (techCheck db countOf)

/-- Whether this technician would trip the capacity check (exists and its open
count reaches its capacity). -/
def techAtCapB (db : DB) (countOf : Id → Nat) (tid : Id) : Bool :=
  match findAssoc db.technicians tid with
  | none => false
  | some t => capOf t ≤ (countOf tid : Int)

/-- src/main.py `create_jobcard` (lines 241-265): vehicle and customer must
exist, every listed technician must exist and be under capacity; on success
insert the job card and force the vehicle's status to "in_service". -/
def create_jobcard (db : DB) (j : JobCard) : Except Err Id × DB :=
  match findAssoc db.vehicles j.vehicle_id with
  | none => (.error (.notFound "Vehicle not found"), db)
  | some _ =>
    if db.customers.contains j.customer_id then
      match checkTechs db (openJobsCount db) j.technician_ids with
      | some e => (.error e, db)
      | none =>
        (.ok db.nextId,
          { db with
              jobcards := insertDoc db.jobcards db.nextId j,
              nextId := db.nextId + 1,
              vehicles := updateAssoc db.vehicles j.vehicle_id
                (fun v => { v with status := "in_service" }) })
    else (.error (.notFound "Customer not found"), db)

/-- Request body of POST /api/jobcards/{id}/assign, src/main.py `AssignTechnicians`. -/
structure AssignBody where
  technician_ids : List Id
  primary_technician_id : Option Id
deriving DecidableEq

/-- src/main.py `assign_technicians` (lines 292-314): capacity loop excluding
the job card being modified, then replace the technician list (and the primary
technician when supplied); 404 when the job card does not exist. -/
def assign_technicians (db : DB) (job_id : Id) (body : AssignBody) : Except Err Unit × DB :=
  match checkTechs db (openJobsCountExcl db job_id) body.technician_ids with
  | some e => (.error e, db)
  | none =>
    let db1 : DB :=
      { db with
          jobcards := updateAssoc db.jobcards job_id (fun jc =>
            { jc with
                technician_ids := body.technician_ids,
                primary_technician_id :=
                  match body.primary_technician_id with
                  | some p => some p
                  | none => jc.primary_technician_id }) }
    if (findAssoc db.jobcards job_id).isSome then (.ok (), db1)
    else (.error (.notFound "Job card not found"), db1)

-- ------------------ Parts requests (src/main.py 330-341) ------------------

/-- Total quantity the request's items charge against one part. -/
def totalQty (items : List PartItem) (pid : Id) : Int :=
  ((items.filter (fun it => it.part_id == pid)).map (fun it => it.quantity)).sum

/-- The supply loop of src/main.py 338-339: decrement each referenced part's
stock by the item's quantity (no existence or sufficiency check). -/
def deductItems (parts : List (Id × Part)) (items : List PartItem) : List (Id × Part) :=
  items.foldl
    (fun ps item => updateAssoc ps item.part_id
      (fun p => { p with stock := p.stock - item.quantity })) parts

/-- src/main.py `update_parts_request` (lines 330-341): 404 when the request
does not exist; always write the caller-supplied status onto the request; when
the new status is exactly "supplied", additionally deduct inventory for every
item and force the parent job card to "in_progress". -/
def update_parts_request (db : DB) (req_id : Id) (status : String) : Except Err Unit × DB :=
  match findAssoc db.partsrequests req_id with
  | none => (.error (.notFound "Parts request not found"), db)
  | some pr =>
    let db1 : DB :=
      { db with
          partsrequests := updateAssoc db.partsrequests req_id
            (fun r => { r with status := status }) }
    if status = "supplied" then
      let db2 : DB := { db1 with parts := deductItems db1.parts pr.items }
      (.ok (),
        { db2 with
            jobcards := updateAssoc db2.jobcards pr.job_card_id
              (fun j => { j with status := "in_progress" }) })
    else (.ok (), db1)

/-- n successive POSTs of status "supplied" to the same parts request. -/
def supplyN (rid : Id) : Nat → DB → DB
  | 0, db => db
  | n + 1, db => supplyN rid n (update_parts_request db rid "supplied").2

-- ------------------ Invoice totals (src/main.py 419-440 and 469-478) ------------------

/-- `d.get("vat_rate", 0.15)`. -/
def invoiceVatRate (inv : Invoice) : Rat := inv.vat_rate.getD 0.15

/-- One line's net amount: `round(unit_price * quantity - discount, 2)`. -/
def lineNetOf (it : QuotationItem) : Rat :=
  round2 (it.unit_price * (it.quantity : Rat) - it.discount)

/-- The totals block of `list_invoices` (src/main.py 426-434): accumulate the
per-line net into the subtotal and the per-line rounded VAT into the VAT
total, then round the subtotal, the VAT total and their sum.  Returns
(subtotal, vat, total). -/
def invoiceTotalsList (inv : Invoice) : Rat × Rat × Rat :=
  let acc := inv.items.foldl
    (fun (a : Rat × Rat) it =>
      (a.1 + lineNetOf it, a.2 + round2 (lineNetOf it * invoiceVatRate inv)))
    ((0 : Rat), (0 : Rat))
  (round2 acc.1, round2 acc.2, round2 (round2 acc.1 + round2 acc.2))

/-- The identical totals block of `pay_invoice` (src/main.py 470-478),
transcribed separately so the two can be compared. -/
def invoiceTotalsPay (inv : Invoice) : Rat × Rat × Rat :=
  let acc := inv.items.foldl
    (fun (a : Rat × Rat) it =>
      (a.1 + lineNetOf it, a.2 + round2 (lineNetOf it * invoiceVatRate inv)))
    ((0 : Rat), (0 : Rat))
  (round2 acc.1, round2 acc.2, round2 (round2 acc.1 + round2 acc.2))

/-- The amount the pay handler requires: the third computed total. -/
def totalDueOf (inv : Invoice) : Rat := (invoiceTotalsPay inv).2.2

/-- Per-line net amount as the spec states it, written from the spec's words:
`line_net = round(unit_price x quantity - discount, 2)`. -/
def specLineNet (it : QuotationItem) : Rat :=
  round2 (it.unit_price * (it.quantity : Rat) - it.discount)

/-- Subtotal as the spec states it: the rounded sum of the line nets. -/
def specSubtotal (inv : Invoice) : Rat :=
  round2 ((inv.items.map specLineNet).sum)

/-- VAT total as the spec states it: the rounded sum of the per-line rounded
VAT amounts (VAT rounded per line, not on the aggregate). -/
def specVatTotal (inv : Invoice) : Rat :=
  round2 ((inv.items.map (fun it => round2 (specLineNet it * invoiceVatRate inv))).sum)

/-- The totals triple as the spec states it. -/
def specTotals (inv : Invoice) : Rat × Rat × Rat :=
  (specSubtotal inv, specVatTotal inv, round2 (specSubtotal inv + specVatTotal inv))

-- ------------------ Paying an invoice (src/main.py 443-509) ------------------

/-- Python string-or on an optional string: None and "" both fall through to
the default (`body.method or "cash"`). -/
def pyOr (o : Option String) (dflt : String) : String :=
  match o with
  | some s => if s == "" then dflt else s
  | none => dflt

/-- Methods that must carry a reference (src/main.py 452). -/
def refRequired (m : String) : Bool :=
  m == "bank_transfer" || m == "cheque" || m == "account"

/-- Python truthiness of `not p.reference`: absent or empty. -/
def refMissingB (r : Option String) : Bool :=
  match r with
  | some s => s == ""
  | none => true

/-- One iteration of the validation loop of `_validate_payments`
(src/main.py 451-455): the reference check precedes the positivity check. -/
def paymentError (p : Payment) : Option Err :=
  if refRequired p.method && refMissingB p.reference then
    some (.invalidInput ("Reference required for " ++ p.method))
  else if p.amount ≤ 0 then
    some (.invalidInput "Payment amount must be positive")
  else none

/-- src/main.py `_validate_payments` (lines 449-460): per-payment checks, then
the rounded sum must reach the rounded total due. -/
def validatePayments (ps : List Payment) (total_due : Rat) : Except Err Rat :=
  match ps.findSome? paymentError with
  | some e => .error e
  | none =>
    let paid_sum := round2 ((ps.map (fun p => p.amount)).sum)
    if paid_sum < round2 total_due then .error (.invalidInput "Insufficient payment amount")
    else .ok paid_sum

/-- Request body of POST /api/invoices/{id}/pay, src/main.py `PayInvoice`. -/
structure PayBody where
  cashier_id : Option Id
  method : Option String
  payments : Option (List Payment)
deriving DecidableEq

/-- The legacy fallback payment (src/main.py 485): a single payment of the
full total due, method `body.method or "cash"`, no reference. -/
def fallbackPayments (body : PayBody) (total_due : Rat) : List Payment :=
  [{ method := pyOr body.method "cash", amount := total_due, reference := none }]

/-- src/main.py 480-485: use the supplied payments when the list is non-empty
(`if body.payments and len(body.payments) > 0`), else the legacy fallback. -/
def paymentsPayload (body : PayBody) (total_due : Rat) : List Payment :=
  match body.payments with
  | some ps => if 0 < ps.length then ps else fallbackPayments body total_due
  | none => fallbackPayments body total_due

/-- The parts-sale loop of src/main.py 490-495: for every line of type "part"
carrying a reference, decrement the referenced part's stock by the line's
quantity and append one InventoryMovement of type "out" referencing the
invoice with note "parts sale".  The loop only touches the part collection and
the movement ledger, threaded here as a pair. -/
def partsSaleLoop (items : List QuotationItem) (inv_id : Id)
    (st : List (Id × Part) × List InventoryMovement) :
    List (Id × Part) × List InventoryMovement :=
  items.foldl
    (fun s it =>
      if it.item_type = "part" then
        match it.ref_id with
        | some pid =>
          (updateAssoc s.1 pid (fun p => { p with stock := p.stock - it.quantity }),
           s.2 ++ [{ part_id := pid, movement_type := "out", quantity := it.quantity,
                     reference := some inv_id, note := some "parts sale" }])
        | none => s
      else s) st

/-- The fields the final `$set` of `pay_invoice` writes onto the stored
invoice (src/main.py 497-506). -/
def applyPaid (inv : Invoice) (body : PayBody) (payload : List Payment) (now : Nat) : Invoice :=
  { inv with
      status := "paid", cashier_id := body.cashier_id, paid_at := some now,
      method := body.method, payments := some payload }

/-- src/main.py `pay_invoice` (lines 463-509): 404 when the invoice does not
exist; recompute the total due; choose the payment payload; validate it (this
runs before every write); on success run the parts-sale loop when the
invoice's source is "parts", then mark the invoice paid.  `now` stands for the
wall-clock payment timestamp. -/
def pay_invoice (db : DB) (inv_id : Id) (body : PayBody) (now : Nat) : Except Err Unit × DB :=
  match findAssoc db.invoices inv_id with
  | none => (.error (.notFound "Invoice not found"), db)
  | some inv =>
    let total_due := totalDueOf inv
    let payload := paymentsPayload body total_due
    match validatePayments payload total_due with
    | .error e => (.error e, db)
    | .ok _ =>
      let pm :=
        if inv.source = "parts" then partsSaleLoop inv.items inv_id (db.parts, db.movements)
        else (db.parts, db.movements)
      let db2 : DB :=
        { db with
            parts := pm.1, movements := pm.2,
            invoices := updateAssoc db.invoices inv_id
              (fun i => applyPaid i body payload now) }
      if (findAssoc db.invoices inv_id).isSome then (.ok (), db2)
      else (.error (.notFound "Invoice not found"), db2)

/-- The movements the parts-sale loop appends, one per qualifying line. -/
def mkMoves (items : List QuotationItem) (inv_id : Id) : List InventoryMovement :=
  items.filterMap (fun it =>
    if it.item_type = "part" then
      match it.ref_id with
      | some pid =>
        some { part_id := pid, movement_type := "out", quantity := it.quantity,
               reference := some inv_id, note := some "parts sale" }
      | none => none
    else none)

/-- Total quantity the qualifying invoice lines charge against one part. -/
def saleQty (items : List QuotationItem) (pid : Id) : Int :=
  ((items.filter (fun it => decide (it.item_type = "part") && it.ref_id == some pid)).map
    (fun it => it.quantity)).sum

/-- The failure condition of the payment validation as the claim states it:
some non-positive amount, or some reference-requiring method without a
reference, or a rounded payment sum short of the rounded total due. -/
def payListBad (ps : List Payment) (inv : Invoice) : Prop :=
  (∃ p ∈ ps, p.amount ≤ 0) ∨
  (∃ p ∈ ps, refRequired p.method = true ∧ refMissingB p.reference = true) ∨
  round2 ((ps.map (fun p => p.amount)).sum) < round2 (totalDueOf inv)

/-- Boolean per-payment failure test. -/
def payBadB (p : Payment) : Bool :=
  (refRequired p.method && refMissingB p.reference) || decide (p.amount ≤ 0)

-- --------------------------- Concrete fixtures ---------------------------

/-- An empty database, fresh identifiers starting at 100. -/
def emptyDB : DB :=
  { customers := [], vehicles := [], parts := [], technicians := [], jobcards := [],
    partsrequests := [], invoices := [], movements := [], nextId := 100 }

/-- A vehicle fixture with VIN "ABCDE". -/
def vehA : Vehicle :=
  { vin := "ABCDE", make := none, model := none, year := none, color := none,
    mileage := none, location := none, status := "in_stock",
    owner_customer_id := none, purchase_vendor_id := none }

/-- A part fixture with five units in stock. -/
def partA : Part :=
  { sku := "SKU-1", name := "Filter", make := none, model_compatibility := [],
    bin_location := none, cost := 5, price := 10, stock := 5, uom := "pcs" }

/-- A technician fixture with no stored capacity attribute (default 3). -/
def techA : Technician :=
  { name := "Tess", code := none, skills := [], is_available := true, capacity := none }

/-- A job card fixture: vehicle 1, customer 2, technician 5, status "open". -/
def jcA : JobCard :=
  { vehicle_id := 1, customer_id := 2, advisor_id := none, technician_ids := [5],
    complaint_notes := none, check_notes := none, labor := [], parts := [],
    materials := [], outside := [], status := "open", vat_rate := 0.15,
    primary_technician_id := none }

/-- The line item of the claim's worked totals example:
unit_price 100, quantity 2, discount 10. -/
def itemC1 : QuotationItem :=
  { item_type := "part", ref_id := none, description := none, quantity := 2,
    unit_price := 100, discount := 10 }

/-- The invoice of the worked totals example, VAT rate 0.15. -/
def invC1 : Invoice :=
  { source := "parts", source_id := none, customer_id := 2, items := [itemC1],
    vat_rate := some 0.15, status := "pending", cashier_id := none, method := none,
    payments := none, paid_at := none }

/-- An invoice with a single 100.00 labor line, VAT 0.15, total due 115. -/
def invC2 : Invoice :=
  { source := "quotation", source_id := none, customer_id := 2,
    items := [{ item_type := "labor", ref_id := none, description := none,
                quantity := 1, unit_price := 100, discount := 0 }],
    vat_rate := some 0.15, status := "pending", cashier_id := none, method := none,
    payments := none, paid_at := none }

/-- A database holding only invC2 under identifier 1. -/
def dbC2 : DB := { emptyDB with invoices := [(1, invC2)] }

/-- A parts request fixture: two units of part 3 for job card 9. -/
def prC3 : PartsRequest :=
  { job_card_id := 9,
    items := [{ part_id := 3, name := none, quantity := 2, price := 10, discount := 0 }],
    status := "approved" }

/-- The job card the parts request belongs to. -/
def jcC3 : JobCard := { jcA with technician_ids := [], status := "waiting_parts" }

/-- A database with the parts request, its part and its job card. -/
def dbC3 : DB :=
  { emptyDB with
      parts := [(3, partA)],
      jobcards := [(9, jcC3)],
      partsrequests := [(7, prC3)] }

/-- A database where technician 5 already has three open job cards. -/
def dbC4 : DB :=
  { emptyDB with
      customers := [2],
      vehicles := [(1, vehA)],
      technicians := [(5, techA)],
      jobcards := [(10, jcA), (11, { jcA with status := "in_progress" }),
                   (12, { jcA with status := "waiting_parts" })] }

/-- A "parts"-sourced invoice whose one line sells two units of part 3. -/
def invC5 : Invoice :=
  { source := "parts", source_id := none, customer_id := 2,
    items := [{ item_type := "part", ref_id := some 3, description := none,
                quantity := 2, unit_price := 10, discount := 0 }],
    vat_rate := some 0.15, status := "pending", cashier_id := none, method := none,
    payments := none, paid_at := none }

/-- A database holding invC5 and the referenced part. -/
def dbC5 : DB := { emptyDB with invoices := [(1, invC5)], parts := [(3, partA)] }

/-- A cash payment body large enough to settle invC5. -/
def payC5 : PayBody :=
  ⟨none, none, some [{ method := "cash", amount := 100, reference := none }]⟩

/-- A database for job card creation against a sold vehicle. -/
def dbC6 : DB :=
  { emptyDB with customers := [2], vehicles := [(1, { vehA with status := "sold" })] }

/-- A job card payload with no technicians for the vehicle-status claim. -/
def jcC6 : JobCard := { jcA with technician_ids := [] }

/-- An invoice with no line items: its computed total due is 0. -/
def invC9 : Invoice :=
  { source := "quotation", source_id := none, customer_id := 2, items := [],
    vat_rate := some 0.15, status := "pending", cashier_id := none, method := none,
    payments := none, paid_at := none }

/-- A database holding only the zero-total invoice under identifier 4. -/
def dbC9 : DB := { emptyDB with invoices := [(4, invC9)] }

/-- A database holding one vehicle with VIN "ABCDE". -/
def dbC10 : DB := { emptyDB with vehicles := [(1, vehA)] }

/-- A registration payload whose VIN differs from "ABCDE" only in case. -/
def vcC10 : VehicleCreate :=
  { vin := "abcde", make := none, model := none, year := none, color := none,
    mileage := none, location := none, owner_customer_id := none,
    purchase_vendor_id := none }

-- --------------------------- Helper lemmas ---------------------------

theorem findAssoc_cons {α : Type} (k : Id) (v : α) (l : List (Id × α)) (j : Id) :
    findAssoc ((k, v) :: l) j = if k = j then some v else findAssoc l j := by
  by_cases h : k = j <;> simp [findAssoc, List.find?_cons, h]

theorem updateAssoc_cons {α : Type} (k : Id) (v : α) (l : List (Id × α)) (i : Id) (f : α → α) :
    updateAssoc ((k, v) :: l) i f =
      (if k = i then (k, f v) else (k, v)) :: updateAssoc l i f := by
  by_cases h : k = i <;> simp [updateAssoc, h]

theorem findAssoc_updateAssoc {α : Type} (l : List (Id × α)) (i j : Id) (f : α → α) :
    findAssoc (updateAssoc l i f) j =
      if j = i then (findAssoc l i).map f else findAssoc l j := by
  induction l with
  | nil => by_cases h : j = i <;> simp [findAssoc, updateAssoc, h]
  | cons p rest ih =>
    obtain ⟨k, v⟩ := p
    rw [updateAssoc_cons]
    by_cases hki : k = i <;> by_cases hji : j = i
    · subst hki; subst hji
      simp [findAssoc_cons]
    · subst hki
      have hkj : ¬ k = j := fun h => hji h.symm
      simp [findAssoc_cons, hkj, hji, ih]
    · subst hji
      simp [findAssoc_cons, hki, ih]
    · by_cases hkj : k = j
      · subst hkj; simp [findAssoc_cons, hki, hji]
      · simp [findAssoc_cons, hki, hkj, hji, ih]

theorem myFindSome_none {α β : Type} (f : α → Option β) (l : List α) :
    l.findSome? f = none ↔ ∀ x ∈ l, f x = none := by
  induction l with
  | nil => simp
  | cons a rest ih =>
    cases h : f a with
    | none => simp [List.findSome?_cons, h, ih]
    | some b => simp [List.findSome?_cons, h]

theorem myFindSome_some {α β : Type} (f : α → Option β) (l : List α) (b : β) :
    l.findSome? f = some b → ∃ x ∈ l, f x = some b := by
  induction l with
  | nil => intro h; simp at h
  | cons a rest ih =>
    intro h
    rw [List.findSome?_cons] at h
    cases ha : f a with
    | none =>
      rw [ha] at h
      obtain ⟨x, hx, hfx⟩ := ih h
      exact ⟨x, by simp [hx], hfx⟩
    | some c =>
      rw [ha] at h
      exact ⟨a, by simp, by rw [ha]; exact h⟩

theorem foldl_pair_sum (α : Type) (f g : α → Rat) (l : List α) (a b : Rat) :
    l.foldl (fun acc it => (acc.1 + f it, acc.2 + g it)) (a, b) =
      (a + (l.map f).sum, b + (l.map g).sum) := by
  induction l generalizing a b with
  | nil => simp
  | cons x xs ih => simp [ih, add_assoc]

-- --------------------------- Claim C1 ---------------------------

/-- Claim C1: for every invoice the computed totals follow the per-line
rounding algorithm (line_net = round(unit_price x quantity - discount, 2)
accumulated into the subtotal, VAT rounded per line with the vat_rate
defaulting to 0.15, then subtotal, VAT total and total = round(subtotal +
vat_total, 2) each rounded to 2 decimals); the worked example with
unit_price=100, quantity=2, discount=10, vat_rate=0.15 yields subtotal 190.00,
vat 28.50, total 218.50; and the listing endpoint's computed totals equal the
totals recomputed at payment time. -/
theorem claim1 :
    (∀ inv : Invoice, invoiceTotalsList inv = specTotals inv) ∧
    invoiceTotalsList invC1 = (190, 28.5, 218.5) ∧
    (∀ inv : Invoice, invoiceTotalsList inv = invoiceTotalsPay inv) := by
  refine ⟨?_, ?_, ?_⟩
  · intro inv
    simp only [invoiceTotalsList, specTotals, specSubtotal, specVatTotal, specLineNet,
      lineNetOf]
    rw [foldl_pair_sum QuotationItem
      (fun it => round2 (it.unit_price * (it.quantity : Rat) - it.discount))
      (fun it => round2 (round2 (it.unit_price * (it.quantity : Rat) - it.discount) *
        invoiceVatRate inv)) inv.items 0 0]
    have hs : specLineNet =
        fun it => round2 (it.unit_price * (it.quantity : Rat) - it.discount) := rfl
    rw [hs]
    simp
  · with_unfolding_all decide
  · intro inv; rfl

-- --------------------------- Payment validation lemmas ---------------------------

theorem paymentError_none_iff (p : Payment) :
    paymentError p = none ↔ payBadB p = false := by
  cases h1 : (refRequired p.method && refMissingB p.reference) <;>
    by_cases h2 : p.amount ≤ 0 <;> simp [paymentError, payBadB, h1, h2]

theorem paymentError_some_shape (p : Payment) (e : Err) (h : paymentError p = some e) :
    ∃ s, e = Err.invalidInput s := by
  unfold paymentError at h
  by_cases h1 : (refRequired p.method && refMissingB p.reference) = true
  · rw [if_pos h1] at h
    exact ⟨_, (Option.some_injective _ h).symm⟩
  · rw [if_neg h1] at h
    by_cases h2 : p.amount ≤ 0
    · rw [if_pos h2] at h
      exact ⟨_, (Option.some_injective _ h).symm⟩
    · rw [if_neg h2] at h; cases h

theorem paymentError_some_bad (p : Payment) (e : Err) (h : paymentError p = some e) :
    payBadB p = true := by
  cases hb : payBadB p
  · rw [(paymentError_none_iff p).2 hb] at h; cases h
  · rfl

theorem validate_invalid_iff (ps : List Payment) (td : Rat) :
    resultInvalidB (validatePayments ps td) = true ↔
      (∃ p ∈ ps, payBadB p = true) ∨
        round2 ((ps.map (fun p => p.amount)).sum) < round2 td := by
  unfold validatePayments
  cases hfs : ps.findSome? paymentError with
  | some e =>
    obtain ⟨x, hx, hfx⟩ := myFindSome_some _ _ _ hfs
    obtain ⟨s, rfl⟩ := paymentError_some_shape x e hfx
    simp only [resultInvalidB, true_iff]
    exact Or.inl ⟨x, hx, paymentError_some_bad x _ hfx⟩
  | none =>
    have hall : ∀ p ∈ ps, payBadB p = false := fun p hp =>
      (paymentError_none_iff p).1 ((myFindSome_none paymentError ps).1 hfs p hp)
    by_cases hlt : round2 ((ps.map (fun p => p.amount)).sum) < round2 td
    · simp [hlt, resultInvalidB]
    · simp only [if_neg hlt, resultInvalidB, Bool.false_eq_true, false_iff]
      rintro (⟨p, hp, hbp⟩ | h)
      · rw [hall p hp] at hbp; cases hbp
      · exact hlt h

theorem validate_ok_iff (ps : List Payment) (td : Rat) :
    resultOkB (validatePayments ps td) = true ↔
      (∀ p ∈ ps, payBadB p = false) ∧
        ¬ round2 ((ps.map (fun p => p.amount)).sum) < round2 td := by
  unfold validatePayments
  cases hfs : ps.findSome? paymentError with
  | some e =>
    obtain ⟨x, hx, hfx⟩ := myFindSome_some _ _ _ hfs
    simp only [resultOkB, Bool.false_eq_true, false_iff]
    rintro ⟨hall, -⟩
    rw [(paymentError_none_iff x).2 (hall x hx)] at hfx; cases hfx
  | none =>
    have hall : ∀ p ∈ ps, payBadB p = false := fun p hp =>
      (paymentError_none_iff p).1 ((myFindSome_none paymentError ps).1 hfs p hp)
    by_cases hlt : round2 ((ps.map (fun p => p.amount)).sum) < round2 td
    · simp only [if_pos hlt, resultOkB, Bool.false_eq_true, false_iff]
      rintro ⟨-, hn⟩; exact hn hlt
    · simp only [if_neg hlt, resultOkB, true_iff]
      exact ⟨hall, hlt⟩

theorem payListBad_iff (ps : List Payment) (inv : Invoice) :
    payListBad ps inv ↔
      (∃ p ∈ ps, payBadB p = true) ∨
        round2 ((ps.map (fun p => p.amount)).sum) < round2 (totalDueOf inv) := by
  unfold payListBad
  constructor
  · rintro (⟨p, hp, hle⟩ | ⟨p, hp, h1, h2⟩ | hlt)
    · exact Or.inl ⟨p, hp, by simp [payBadB, hle]⟩
    · exact Or.inl ⟨p, hp, by simp [payBadB, h1, h2]⟩
    · exact Or.inr hlt
  · rintro (⟨p, hp, hb⟩ | hlt)
    · simp only [payBadB, Bool.or_eq_true, Bool.and_eq_true, decide_eq_true_eq] at hb
      rcases hb with ⟨h1, h2⟩ | hle
      · exact Or.inr (Or.inl ⟨p, hp, h1, h2⟩)
      · exact Or.inl ⟨p, hp, hle⟩
    · exact Or.inr (Or.inr hlt)

-- --------------------------- Claim C2 ---------------------------

/-- Claim C2 counterexample: the claim as stated quantifies over every
supplied payment list, including the empty one.  For invoice invC2 (total due
115.00) a supplied empty payment list has a rounded payment sum 0 that is
strictly below the rounded total due, so the claim predicts an InvalidInput
failure; the code instead falls back to the legacy single cash payment of the
full total due and the payment succeeds. -/
theorem claim2_counterexample :
    findAssoc dbC2.invoices 1 = some invC2 ∧
    round2 ((([] : List Payment).map (fun p => p.amount)).sum) < round2 (totalDueOf invC2) ∧
    resultOkB (pay_invoice dbC2 1 ⟨none, none, some []⟩ 0).1 = true := by
  with_unfolding_all decide

/-- Claim C2 (amended: restricted to non-empty supplied payment lists, which
the counterexample forces because an empty supplied list falls back to the
legacy single full payment): for every existing invoice and every non-empty
supplied payment list, paying fails with InvalidInput exactly when some
payment has a non-positive amount, or some payment with method bank_transfer,
cheque or account has an absent or empty reference, or the rounded payment
sum is strictly below the rounded total due; otherwise (any sum at least the
total due, overpayment included) the payment succeeds. -/
theorem claim2 (db : DB) (inv_id : Id) (inv : Invoice)
    (h : findAssoc db.invoices inv_id = some inv)
    (ps : List Payment) (hps : ps ≠ []) (c : Option Id) (m : Option String) (now : Nat) :
    (resultInvalidB (pay_invoice db inv_id
        { cashier_id := c, method := m, payments := some ps } now).1 = true ↔
      payListBad ps inv) ∧
    (resultOkB (pay_invoice db inv_id
        { cashier_id := c, method := m, payments := some ps } now).1 = true ↔
      ¬ payListBad ps inv) := by
  have hpayload : paymentsPayload { cashier_id := c, method := m, payments := some ps }
      (totalDueOf inv) = ps := by
    unfold paymentsPayload
    simp [List.length_pos.2 hps]
  have hfst : (pay_invoice db inv_id
      { cashier_id := c, method := m, payments := some ps } now).1 =
      (match validatePayments ps (totalDueOf inv) with
       | .error e => .error e
       | .ok _ => .ok ()) := by
    simp only [pay_invoice, h, hpayload]
    cases validatePayments ps (totalDueOf inv) <;> simp [h]
  have hinv : resultInvalidB (pay_invoice db inv_id
      { cashier_id := c, method := m, payments := some ps } now).1 =
      resultInvalidB (validatePayments ps (totalDueOf inv)) := by
    rw [hfst]
    cases validatePayments ps (totalDueOf inv) with
    | error e => cases e <;> rfl
    | ok v => rfl
  have hok : resultOkB (pay_invoice db inv_id
      { cashier_id := c, method := m, payments := some ps } now).1 =
      resultOkB (validatePayments ps (totalDueOf inv)) := by
    rw [hfst]
    cases validatePayments ps (totalDueOf inv) with
    | error e => cases e <;> rfl
    | ok v => rfl
  constructor
  · rw [hinv, payListBad_iff]
    exact validate_invalid_iff ps (totalDueOf inv)
  · rw [hok, payListBad_iff]
    rw [validate_ok_iff ps (totalDueOf inv)]
    constructor
    · rintro ⟨hall, hn⟩ (⟨p, hp, hb⟩ | hlt)
      · rw [hall p hp] at hb; cases hb
      · exact hn hlt
    · intro hnot
      refine ⟨fun p hp => ?_, fun hlt => hnot (Or.inr hlt)⟩
      cases hb : payBadB p
      · rfl
      · exact absurd (Or.inl ⟨p, hp, hb⟩) hnot

/-- Claim C2 witness: for invC2 (total due 115.00) a single cash payment of
50.00 is rejected as InvalidInput (insufficient). -/
theorem claim2_witness :
    resultInvalidB (pay_invoice dbC2 1
      ⟨none, none, some [{ method := "cash", amount := 50, reference := none }]⟩ 0).1 = true :=
  (claim2 dbC2 1 invC2 (by with_unfolding_all decide)
      [{ method := "cash", amount := 50, reference := none }]
      (by with_unfolding_all decide) none none 0).1.mpr
    (Or.inr (Or.inr (by with_unfolding_all decide)))

-- --------------------------- Claim C7 ---------------------------

/-- Claim C7: when paying an invoice fails with InvalidInput, the database is
completely unchanged — payment validation runs before every side effect, so
the invoice record (status, payments, cashier, method, timestamp), every
part's stock and the movement ledger are exactly as before. -/
theorem claim7 (db : DB) (inv_id : Id) (body : PayBody) (now : Nat)
    (h : resultInvalidB (pay_invoice db inv_id body now).1 = true) :
    (pay_invoice db inv_id body now).2 = db := by
  cases hfind : findAssoc db.invoices inv_id with
  | none => simp only [pay_invoice, hfind]
  | some inv =>
    simp only [pay_invoice, hfind] at h ⊢
    cases hv : validatePayments (paymentsPayload body (totalDueOf inv)) (totalDueOf inv) with
    | error e => simp only [hv]
    | ok v =>
      simp only [hv] at h
      simp [resultInvalidB] at h

/-- Claim C7 witness: an insufficient cash payment of 50.00 against invC2
(total due 115.00) leaves the database exactly as it was. -/
theorem claim7_witness :
    (pay_invoice dbC2 1
      ⟨none, none, some [{ method := "cash", amount := 50, reference := none }]⟩ 0).2 = dbC2 :=
  claim7 dbC2 1 ⟨none, none, some [{ method := "cash", amount := 50, reference := none }]⟩ 0
    (by with_unfolding_all decide)

-- --------------------------- Claim C9 ---------------------------

/-- Claim C9: an existing invoice whose computed total due is 0 (for example
one with no line items) can never be settled without an explicit payment
list: the legacy fallback builds a single payment of amount 0, validation
rejects it as InvalidInput, and the invoice is left untouched (still
"pending"). -/
theorem claim9 (db : DB) (inv_id : Id) (inv : Invoice)
    (h : findAssoc db.invoices inv_id = some inv) (hz : totalDueOf inv = 0)
    (c : Option Id) (m : Option String) (now : Nat) :
    paymentsPayload ⟨c, m, none⟩ (totalDueOf inv) =
      [{ method := pyOr m "cash", amount := 0, reference := none }] ∧
    resultInvalidB (pay_invoice db inv_id ⟨c, m, none⟩ now).1 = true ∧
    (pay_invoice db inv_id ⟨c, m, none⟩ now).2 = db := by
  have hpayload : paymentsPayload ⟨c, m, none⟩ (totalDueOf inv) =
      [{ method := pyOr m "cash", amount := 0, reference := none }] := by
    unfold paymentsPayload fallbackPayments
    rw [hz]
  have hbad : paymentError { method := pyOr m "cash", amount := 0, reference := none } ≠ none := by
    unfold paymentError
    cases hr : refRequired (pyOr m "cash") && refMissingB (none : Option String) <;>
      simp [hr]
  have hval : ∀ e, validatePayments [{ method := pyOr m "cash", amount := 0, reference := none }]
      (totalDueOf inv) = .error e → ∃ s, e = Err.invalidInput s := by
    intro e hv
    unfold validatePayments at hv
    cases hfs : List.findSome? paymentError
        [({ method := pyOr m "cash", amount := 0, reference := none } : Payment)] with
    | none =>
      exact absurd ((myFindSome_none _ _).1 hfs _ (by simp)) hbad
    | some e2 =>
      rw [hfs] at hv
      obtain ⟨x, hx, hfx⟩ := myFindSome_some _ _ _ hfs
      obtain ⟨s, rfl⟩ := paymentError_some_shape x e2 hfx
      have hv2 : (Except.error (Err.invalidInput s) : Except Err Rat) = .error e := hv
      exact ⟨s, (by injection hv2 with he; exact he.symm)⟩
  have hnotok : ∀ v, validatePayments [{ method := pyOr m "cash", amount := 0, reference := none }]
      (totalDueOf inv) ≠ .ok v := by
    intro v hv
    have hh := (validate_ok_iff _ (totalDueOf inv)).1 (by rw [hv]; rfl)
    have hb := hh.1 _ (by simp :
      ({ method := pyOr m "cash", amount := 0, reference := none } : Payment) ∈ _)
    simp [payBadB] at hb
  refine ⟨hpayload, ?_, ?_⟩
  · simp only [pay_invoice, h, hpayload]
    cases hv : validatePayments [{ method := pyOr m "cash", amount := 0, reference := none }]
        (totalDueOf inv) with
    | error e =>
      obtain ⟨s, rfl⟩ := hval e hv
      rfl
    | ok v => exact absurd hv (hnotok v)
  · simp only [pay_invoice, h, hpayload]
    cases hv : validatePayments [{ method := pyOr m "cash", amount := 0, reference := none }]
        (totalDueOf inv) with
    | error e => rfl
    | ok v => exact absurd hv (hnotok v)

/-- Claim C9 witness: invoice invC9 has no line items, its total due is 0,
and paying it with no payment list fails with InvalidInput leaving the
database unchanged. -/
theorem claim9_witness :
    paymentsPayload ⟨none, none, none⟩ (totalDueOf invC9) =
      [{ method := pyOr none "cash", amount := 0, reference := none }] ∧
    resultInvalidB (pay_invoice dbC9 4 ⟨none, none, none⟩ 0).1 = true ∧
    (pay_invoice dbC9 4 ⟨none, none, none⟩ 0).2 = dbC9 :=
  claim9 dbC9 4 invC9 (by with_unfolding_all decide) (by with_unfolding_all decide)
    none none 0

-- --------------------------- Inventory deduction lemmas ---------------------------

theorem totalQty_cons (it : PartItem) (rest : List PartItem) (pid : Id) :
    totalQty (it :: rest) pid =
      (if it.part_id = pid then it.quantity else 0) + totalQty rest pid := by
  by_cases h : it.part_id = pid <;> simp [totalQty, List.filter_cons, h]

theorem deductItems_cons (parts : List (Id × Part)) (it : PartItem) (rest : List PartItem) :
    deductItems parts (it :: rest) =
      deductItems
        (updateAssoc parts it.part_id (fun p => { p with stock := p.stock - it.quantity }))
        rest := rfl

theorem deductItems_lookup (items : List PartItem) (parts : List (Id × Part)) (pid : Id) :
    findAssoc (deductItems parts items) pid =
      (findAssoc parts pid).map
        (fun p => { p with stock := p.stock - totalQty items pid }) := by
  induction items generalizing parts with
  | nil =>
    cases h : findAssoc parts pid <;> simp [deductItems, totalQty, h]
  | cons it rest ih =>
    rw [deductItems_cons, ih, findAssoc_updateAssoc, totalQty_cons]
    by_cases hp : pid = it.part_id
    · rw [if_pos hp, if_pos hp.symm, ← hp]
      cases h : findAssoc parts pid <;> simp [h, sub_sub]
    · rw [if_neg hp, if_neg (fun hh => hp hh.symm)]
      cases h : findAssoc parts pid <;> simp [h]

theorem saleQty_cons (it : QuotationItem) (rest : List QuotationItem) (pid : Id) :
    saleQty (it :: rest) pid =
      (if it.item_type = "part" ∧ it.ref_id = some pid then it.quantity else 0) +
        saleQty rest pid := by
  by_cases h1 : it.item_type = "part" <;> by_cases h2 : it.ref_id = some pid <;>
    simp [saleQty, List.filter_cons, h1, h2]

theorem partsSaleLoop_cons_hit (items : List QuotationItem) (inv_id : Id)
    (st : List (Id × Part) × List InventoryMovement) (it : QuotationItem) (pid2 : Id)
    (ht : it.item_type = "part") (hr : it.ref_id = some pid2) :
    partsSaleLoop (it :: items) inv_id st =
      partsSaleLoop items inv_id
        (updateAssoc st.1 pid2 (fun p => { p with stock := p.stock - it.quantity }),
         st.2 ++ [{ part_id := pid2, movement_type := "out", quantity := it.quantity,
                    reference := some inv_id, note := some "parts sale" }]) := by
  unfold partsSaleLoop
  rw [List.foldl_cons]
  congr 1
  rw [if_pos ht, hr]

theorem partsSaleLoop_cons_skip (items : List QuotationItem) (inv_id : Id)
    (st : List (Id × Part) × List InventoryMovement) (it : QuotationItem)
    (hskip : ¬ it.item_type = "part" ∨ it.ref_id = none) :
    partsSaleLoop (it :: items) inv_id st = partsSaleLoop items inv_id st := by
  unfold partsSaleLoop
  rw [List.foldl_cons]
  congr 1
  rcases hskip with ht | hr
  · rw [if_neg ht]
  · by_cases ht : it.item_type = "part"
    · rw [if_pos ht, hr]
    · rw [if_neg ht]

theorem mkMoves_cons_hit (items : List QuotationItem) (inv_id : Id)
    (it : QuotationItem) (pid2 : Id)
    (ht : it.item_type = "part") (hr : it.ref_id = some pid2) :
    mkMoves (it :: items) inv_id =
      { part_id := pid2, movement_type := "out", quantity := it.quantity,
        reference := some inv_id, note := some "parts sale" } :: mkMoves items inv_id := by
  unfold mkMoves
  rw [List.filterMap_cons]
  rw [if_pos ht, hr]

theorem mkMoves_cons_skip (items : List QuotationItem) (inv_id : Id) (it : QuotationItem)
    (hskip : ¬ it.item_type = "part" ∨ it.ref_id = none) :
    mkMoves (it :: items) inv_id = mkMoves items inv_id := by
  unfold mkMoves
  rw [List.filterMap_cons]
  rcases hskip with ht | hr
  · rw [if_neg ht]
  · by_cases ht : it.item_type = "part"
    · rw [if_pos ht, hr]
    · rw [if_neg ht]

theorem partsSaleLoop_movements (items : List QuotationItem) (inv_id : Id)
    (st : List (Id × Part) × List InventoryMovement) :
    (partsSaleLoop items inv_id st).2 = st.2 ++ mkMoves items inv_id := by
  induction items generalizing st with
  | nil => simp [partsSaleLoop, mkMoves]
  | cons it rest ih =>
    by_cases ht : it.item_type = "part"
    · cases hr : it.ref_id with
      | none =>
        rw [partsSaleLoop_cons_skip rest inv_id st it (Or.inr hr),
          mkMoves_cons_skip rest inv_id it (Or.inr hr), ih]
      | some pid2 =>
        rw [partsSaleLoop_cons_hit rest inv_id st it pid2 ht hr,
          mkMoves_cons_hit rest inv_id it pid2 ht hr, ih]
        simp
    · rw [partsSaleLoop_cons_skip rest inv_id st it (Or.inl ht),
        mkMoves_cons_skip rest inv_id it (Or.inl ht), ih]

theorem partsSaleLoop_parts_lookup (items : List QuotationItem) (inv_id : Id)
    (st : List (Id × Part) × List InventoryMovement) (pid : Id) :
    findAssoc (partsSaleLoop items inv_id st).1 pid =
      (findAssoc st.1 pid).map
        (fun p => { p with stock := p.stock - saleQty items pid }) := by
  induction items generalizing st with
  | nil =>
    cases h : findAssoc st.1 pid <;> simp [partsSaleLoop, saleQty, h]
  | cons it rest ih =>
    by_cases ht : it.item_type = "part"
    · cases hr : it.ref_id with
      | none =>
        rw [partsSaleLoop_cons_skip rest inv_id st it (Or.inr hr), ih, saleQty_cons]
        have hcond : ¬ (it.item_type = "part" ∧ it.ref_id = some pid) := by
          rintro ⟨-, h2⟩; rw [hr] at h2; cases h2
        rw [if_neg hcond]
        cases h : findAssoc st.1 pid <;> simp [h]
      | some pid2 =>
        rw [partsSaleLoop_cons_hit rest inv_id st it pid2 ht hr, ih,
          findAssoc_updateAssoc, saleQty_cons]
        by_cases hp : pid = pid2
        · rw [if_pos hp, if_pos ⟨ht, by rw [hr, hp]⟩, ← hp]
          cases h : findAssoc st.1 pid <;> simp [h, sub_sub]
        · have hcond : ¬ (it.item_type = "part" ∧ it.ref_id = some pid) := by
            rintro ⟨-, h2⟩; rw [hr] at h2
            exact hp (Option.some_injective _ h2).symm
          rw [if_neg hp, if_neg hcond]
          cases h : findAssoc st.1 pid <;> simp [h]
    · rw [partsSaleLoop_cons_skip rest inv_id st it (Or.inl ht), ih, saleQty_cons]
      have hcond : ¬ (it.item_type = "part" ∧ it.ref_id = some pid) := fun hh => ht hh.1
      rw [if_neg hcond]
      cases h : findAssoc st.1 pid <;> simp [h]

-- --------------------------- Claim C3 ---------------------------

theorem update_supplied_eq (db : DB) (rid : Id) (pr : PartsRequest)
    (h : findAssoc db.partsrequests rid = some pr) :
    update_parts_request db rid "supplied" =
      (.ok (), { db with
          partsrequests := updateAssoc db.partsrequests rid
            (fun r => { r with status := "supplied" }),
          parts := deductItems db.parts pr.items,
          jobcards := updateAssoc db.jobcards pr.job_card_id
            (fun j => { j with status := "in_progress" }) }) := by
  simp only [update_parts_request, h]
  rfl

/-- Claim C3: updating an existing parts request's status to exactly
"supplied" decrements each referenced part's stock by the item quantities
(with no existence or sufficiency check: absent parts are simply skipped by
the lookup formula) and sets the parent job card's status to "in_progress";
any other status value changes only the request's own status field and leaves
every part, the job card and the rest of the database unchanged. -/
theorem claim3 (db : DB) (rid : Id) (pr : PartsRequest) (status : String) (jc : JobCard)
    (h : findAssoc db.partsrequests rid = some pr)
    (hjc : findAssoc db.jobcards pr.job_card_id = some jc) :
    (status = "supplied" →
      (update_parts_request db rid status).1 = .ok () ∧
      (∀ pid, findAssoc (update_parts_request db rid status).2.parts pid =
        (findAssoc db.parts pid).map
          (fun p => { p with stock := p.stock - totalQty pr.items pid })) ∧
      findAssoc (update_parts_request db rid status).2.partsrequests rid =
        some { pr with status := "supplied" } ∧
      findAssoc (update_parts_request db rid status).2.jobcards pr.job_card_id =
        some { jc with status := "in_progress" } ∧
      (∀ j, j ≠ pr.job_card_id →
        findAssoc (update_parts_request db rid status).2.jobcards j =
          findAssoc db.jobcards j)) ∧
    (status ≠ "supplied" →
      update_parts_request db rid status =
        (.ok (), { db with
            partsrequests := updateAssoc db.partsrequests rid
              (fun r => { r with status := status }) })) := by
  constructor
  · intro hs
    subst hs
    rw [update_supplied_eq db rid pr h]
    refine ⟨rfl, ?_, ?_, ?_, ?_⟩
    · intro pid
      exact deductItems_lookup pr.items db.parts pid
    · show findAssoc (updateAssoc db.partsrequests rid
        (fun r => { r with status := "supplied" })) rid = _
      rw [findAssoc_updateAssoc, if_pos rfl, h]
      rfl
    · show findAssoc (updateAssoc db.jobcards pr.job_card_id
        (fun j => { j with status := "in_progress" })) pr.job_card_id = _
      rw [findAssoc_updateAssoc, if_pos rfl, hjc]
      rfl
    · intro j hne
      show findAssoc (updateAssoc db.jobcards pr.job_card_id
        (fun jj => { jj with status := "in_progress" })) j = _
      rw [findAssoc_updateAssoc, if_neg hne]
  · intro hns
    simp only [update_parts_request, h, if_neg hns]

/-- Claim C3 witness: supplying parts request 7 (two units of part 3 against
job card 9) decrements part 3's stock formula, marks the request supplied and
the job card in progress; posting "rejected" instead only rewrites the
request's status field. -/
theorem claim3_witness :
    ((update_parts_request dbC3 7 "supplied").1 = .ok () ∧
      findAssoc (update_parts_request dbC3 7 "supplied").2.parts 3 =
        (findAssoc dbC3.parts 3).map
          (fun p => { p with stock := p.stock - totalQty prC3.items 3 }) ∧
      findAssoc (update_parts_request dbC3 7 "supplied").2.partsrequests 7 =
        some { prC3 with status := "supplied" } ∧
      findAssoc (update_parts_request dbC3 7 "supplied").2.jobcards 9 =
        some { jcC3 with status := "in_progress" }) ∧
    update_parts_request dbC3 7 "rejected" =
      (.ok (), { dbC3 with
          partsrequests := updateAssoc dbC3.partsrequests 7
            (fun r => { r with status := "rejected" }) }) := by
  have hs := (claim3 dbC3 7 prC3 "supplied" jcC3 (by with_unfolding_all decide)
    (by with_unfolding_all decide)).1 rfl
  have hr := (claim3 dbC3 7 prC3 "rejected" jcC3 (by with_unfolding_all decide)
    (by with_unfolding_all decide)).2 (by with_unfolding_all decide)
  exact ⟨⟨hs.1, hs.2.1 3, hs.2.2.1, hs.2.2.2.1⟩, hr⟩

-- --------------------------- Claim C8 ---------------------------

theorem supplyN_props (rid : Id) : ∀ (n : Nat) (db : DB) (pr : PartsRequest) (jc : JobCard),
    findAssoc db.partsrequests rid = some pr →
    findAssoc db.jobcards pr.job_card_id = some jc →
    (∀ pid, findAssoc (supplyN rid n db).parts pid =
      (findAssoc db.parts pid).map
        (fun p => { p with stock := p.stock - (n : Int) * totalQty pr.items pid })) ∧
    (1 ≤ n →
      findAssoc (supplyN rid n db).partsrequests rid = some { pr with status := "supplied" } ∧
      findAssoc (supplyN rid n db).jobcards pr.job_card_id =
        some { jc with status := "in_progress" }) := by
  intro n
  induction n with
  | zero =>
    intro db pr jc h hjc
    constructor
    · intro pid
      cases hp : findAssoc db.parts pid <;> simp [supplyN, hp]
    · intro h1
      exact absurd h1 (by omega)
  | succ n ih =>
    intro db pr jc h hjc
    have hstep := update_supplied_eq db rid pr h
    have h1 : findAssoc ((update_parts_request db rid "supplied").2).partsrequests rid =
        some { pr with status := "supplied" } := by
      rw [hstep]
      show findAssoc (updateAssoc db.partsrequests rid
        (fun r => { r with status := "supplied" })) rid = _
      rw [findAssoc_updateAssoc, if_pos rfl, h]
      rfl
    have h2 : findAssoc ((update_parts_request db rid "supplied").2).jobcards
        ({ pr with status := "supplied" } : PartsRequest).job_card_id =
        some { jc with status := "in_progress" } := by
      rw [hstep]
      show findAssoc (updateAssoc db.jobcards pr.job_card_id
        (fun j => { j with status := "in_progress" })) pr.job_card_id = _
      rw [findAssoc_updateAssoc, if_pos rfl, hjc]
      rfl
    have h3 : ∀ pid, findAssoc ((update_parts_request db rid "supplied").2).parts pid =
        (findAssoc db.parts pid).map
          (fun p => { p with stock := p.stock - totalQty pr.items pid }) := by
      intro pid
      rw [hstep]
      exact deductItems_lookup pr.items db.parts pid
    obtain ⟨ihp, ihs⟩ := ih (update_parts_request db rid "supplied").2
      { pr with status := "supplied" } { jc with status := "in_progress" } h1 h2
    constructor
    · intro pid
      have hgoal : supplyN rid (n + 1) db =
          supplyN rid n (update_parts_request db rid "supplied").2 := rfl
      rw [hgoal]
      have hv := ihp pid
      rw [h3 pid] at hv
      rw [hv]
      cases hp : findAssoc db.parts pid <;> simp [hp, sub_sub]
      ring
    · intro _
      rcases Nat.eq_zero_or_pos n with hn | hn
      · subst hn
        exact ⟨h1, h2⟩
      · obtain ⟨hs1, hs2⟩ := ihs hn
        exact ⟨hs1, hs2⟩

/-- Claim C8: supplying a parts request is not idempotent: there is no guard
on the request's prior status, so each of n successive "supplied" posts to
the same (existing) request deducts the full item quantities again — after n
calls every part's stock is down by n times the requested quantity, while the
request just stays "supplied" and the job card "in_progress". -/
theorem claim8 (db : DB) (rid : Id) (pr : PartsRequest) (jc : JobCard)
    (h : findAssoc db.partsrequests rid = some pr)
    (hjc : findAssoc db.jobcards pr.job_card_id = some jc) (n : Nat) :
    (∀ pid, findAssoc (supplyN rid n db).parts pid =
      (findAssoc db.parts pid).map
        (fun p => { p with stock := p.stock - (n : Int) * totalQty pr.items pid })) ∧
    (1 ≤ n →
      findAssoc (supplyN rid n db).partsrequests rid = some { pr with status := "supplied" } ∧
      findAssoc (supplyN rid n db).jobcards pr.job_card_id =
        some { jc with status := "in_progress" }) :=
  supplyN_props rid n db pr jc h hjc

/-- Claim C8 witness: two successive "supplied" posts to parts request 7
(which requests two units of part 3) leave part 3's stock lower by 2 x 2
units, with the request already "supplied" after the first call. -/
theorem claim8_witness :
    findAssoc (supplyN 7 2 dbC3).parts 3 =
      (findAssoc dbC3.parts 3).map
        (fun p => { p with stock := p.stock - ((2 : Nat) : Int) * totalQty prC3.items 3 }) ∧
    findAssoc (supplyN 7 2 dbC3).partsrequests 7 = some { prC3 with status := "supplied" } :=
  ⟨(claim8 dbC3 7 prC3 jcC3 (by with_unfolding_all decide)
      (by with_unfolding_all decide) 2).1 3,
   ((claim8 dbC3 7 prC3 jcC3 (by with_unfolding_all decide)
      (by with_unfolding_all decide) 2).2 (by omega)).1⟩

-- --------------------------- Claim C5 ---------------------------

/-- Claim C5: when an invoice of source "parts" is successfully paid, every
line item of type "part" carrying a reference has the referenced part's stock
decremented by the line's quantity and exactly one InventoryMovement of type
"out" with that quantity, reference the invoice id and note "parts sale"
appended, in line order; lines of other types or without a reference
contribute nothing, and an invoice of any other source changes neither parts
nor movements. -/
theorem claim5 (db : DB) (inv_id : Id) (inv : Invoice) (body : PayBody) (now : Nat)
    (h : findAssoc db.invoices inv_id = some inv)
    (hok : resultOkB (pay_invoice db inv_id body now).1 = true) :
    (inv.source = "parts" →
      (∀ pid, findAssoc (pay_invoice db inv_id body now).2.parts pid =
        (findAssoc db.parts pid).map
          (fun p => { p with stock := p.stock - saleQty inv.items pid })) ∧
      (pay_invoice db inv_id body now).2.movements =
        db.movements ++ mkMoves inv.items inv_id) ∧
    (inv.source ≠ "parts" →
      (pay_invoice db inv_id body now).2.parts = db.parts ∧
      (pay_invoice db inv_id body now).2.movements = db.movements) := by
  simp only [pay_invoice, h] at hok ⊢
  cases hv : validatePayments (paymentsPayload body (totalDueOf inv)) (totalDueOf inv) with
  | error e =>
    rw [hv] at hok
    simp [resultOkB] at hok
  | ok v =>
    simp only [hv]
    constructor
    · intro hsrc
      rw [if_pos hsrc]
      constructor
      · intro pid
        exact partsSaleLoop_parts_lookup inv.items inv_id (db.parts, db.movements) pid
      · exact partsSaleLoop_movements inv.items inv_id (db.parts, db.movements)
    · intro hsrc
      rw [if_neg hsrc]
      exact ⟨rfl, rfl⟩

/-- Claim C5 witness: paying the "parts"-sourced invoice invC5 (two units of
part 3) with 100.00 cash succeeds, part 3's stock drops per the sale-quantity
formula and exactly the matching "out" movement is appended. -/
theorem claim5_witness :
    findAssoc (pay_invoice dbC5 1 payC5 0).2.parts 3 =
      (findAssoc dbC5.parts 3).map
        (fun p => { p with stock := p.stock - saleQty invC5.items 3 }) ∧
    (pay_invoice dbC5 1 payC5 0).2.movements = dbC5.movements ++ mkMoves invC5.items 1 := by
  have h := (claim5 dbC5 1 invC5 payC5 0 (by with_unfolding_all decide)
    (by with_unfolding_all decide)).1 rfl
  exact ⟨h.1 3, h.2⟩

-- --------------------------- Claim C6 ---------------------------

/-- Claim C6: every successful job card creation sets the linked vehicle's
status to "in_service" whatever its prior status was (sold and reserved
included, since the prior record is arbitrary), leaves every other field of
that vehicle unchanged, and leaves every other vehicle untouched. -/
theorem claim6 (db : DB) (j : JobCard)
    (hok : resultOkB (create_jobcard db j).1 = true) :
    ∃ v, findAssoc db.vehicles j.vehicle_id = some v ∧
      findAssoc (create_jobcard db j).2.vehicles j.vehicle_id =
        some { v with status := "in_service" } ∧
      (∀ i, i ≠ j.vehicle_id →
        findAssoc (create_jobcard db j).2.vehicles i = findAssoc db.vehicles i) := by
  cases hfind : findAssoc db.vehicles j.vehicle_id with
  | none =>
    simp only [create_jobcard, hfind] at hok
    simp [resultOkB] at hok
  | some v =>
    simp only [create_jobcard, hfind] at hok ⊢
    by_cases hc : db.customers.contains j.customer_id
    · rw [if_pos hc] at hok ⊢
      cases hchk : checkTechs db (openJobsCount db) j.technician_ids with
      | some e =>
        rw [hchk] at hok
        simp [resultOkB] at hok
      | none =>
        simp only [hchk]
        refine ⟨v, rfl, ?_, ?_⟩
        · show findAssoc (updateAssoc db.vehicles j.vehicle_id
            (fun w => { w with status := "in_service" })) j.vehicle_id = _
          rw [findAssoc_updateAssoc, if_pos rfl, hfind]
          rfl
        · intro i hne
          show findAssoc (updateAssoc db.vehicles j.vehicle_id
            (fun w => { w with status := "in_service" })) i = _
          rw [findAssoc_updateAssoc, if_neg hne]
    · rw [if_neg hc] at hok
      simp [resultOkB] at hok

/-- Claim C6 witness: creating a job card against vehicle 1, which is
currently "sold", succeeds and flips that vehicle to "in_service". -/
theorem claim6_witness :
    ∃ v, findAssoc dbC6.vehicles jcC6.vehicle_id = some v ∧
      findAssoc (create_jobcard dbC6 jcC6).2.vehicles jcC6.vehicle_id =
        some { v with status := "in_service" } ∧
      (∀ i, i ≠ jcC6.vehicle_id →
        findAssoc (create_jobcard dbC6 jcC6).2.vehicles i = findAssoc dbC6.vehicles i) :=
  claim6 dbC6 jcC6 (by with_unfolding_all decide)

-- --------------------------- Claim C4 ---------------------------

theorem techCheck_none_iff (db : DB) (countOf : Id → Nat) (t : Id)
    (hex : (findAssoc db.technicians t).isSome = true) :
    techCheck db countOf t = none ↔ techAtCapB db countOf t = false := by
  obtain ⟨tech, htech⟩ := Option.isSome_iff_exists.1 hex
  unfold techCheck techAtCapB
  rw [htech]
  by_cases hcap : capOf tech ≤ (countOf t : Int) <;> simp [hcap]

theorem techCheck_some_conflict (db : DB) (countOf : Id → Nat) (t : Id) (e : Err)
    (hex : (findAssoc db.technicians t).isSome = true)
    (h : techCheck db countOf t = some e) :
    (∃ s, e = Err.conflict s) ∧ techAtCapB db countOf t = true := by
  obtain ⟨tech, htech⟩ := Option.isSome_iff_exists.1 hex
  simp only [techCheck, htech] at h
  by_cases hcap : capOf tech ≤ (countOf t : Int)
  · rw [if_pos hcap] at h
    refine ⟨⟨"Technician at capacity: " ++ tech.name, ?_⟩, ?_⟩
    · injection h with hh
      exact hh.symm
    · unfold techAtCapB
      rw [htech]
      simp [hcap]
  · rw [if_neg hcap] at h
    cases h

theorem checkTechs_cases (db : DB) (countOf : Id → Nat) (ids : List Id)
    (hex : ∀ t ∈ ids, (findAssoc db.technicians t).isSome = true) :
    (checkTechs db countOf ids = none ∧ ∀ t ∈ ids, techAtCapB db countOf t = false) ∨
    (∃ s, checkTechs db countOf ids = some (Err.conflict s) ∧
      ∃ t ∈ ids, techAtCapB db countOf t = true) := by
  cases hchk : checkTechs db countOf ids with
  | none =>
    left
    refine ⟨rfl, fun t ht => ?_⟩
    exact (techCheck_none_iff db countOf t (hex t ht)).1
      ((myFindSome_none (techCheck db countOf) ids).1 hchk t ht)
  | some e =>
    right
    obtain ⟨x, hx, hfx⟩ := myFindSome_some (techCheck db countOf) ids e hchk
    obtain ⟨⟨s, rfl⟩, hcap⟩ := techCheck_some_conflict db countOf x e (hex x hx) hfx
    exact ⟨s, rfl, x, hx, hcap⟩

theorem create_conflict_iff (db : DB) (j : JobCard)
    (hv : (findAssoc db.vehicles j.vehicle_id).isSome = true)
    (hc : db.customers.contains j.customer_id = true)
    (hex : ∀ t ∈ j.technician_ids, (findAssoc db.technicians t).isSome = true) :
    resultConflictB (create_jobcard db j).1 = true ↔
      ∃ t ∈ j.technician_ids, techAtCapB db (openJobsCount db) t = true := by
  obtain ⟨v, hfind⟩ := Option.isSome_iff_exists.1 hv
  simp only [create_jobcard, hfind]
  rw [if_pos hc]
  rcases checkTechs_cases db (openJobsCount db) j.technician_ids hex with
    ⟨hnone, hall⟩ | ⟨s, hsome, t, ht, hcap⟩
  · rw [hnone]
    simp only [resultConflictB, Bool.false_eq_true, false_iff]
    rintro ⟨t, ht, hcap⟩
    rw [hall t ht] at hcap
    cases hcap
  · rw [hsome]
    simp only [resultConflictB, true_iff]
    exact ⟨t, ht, hcap⟩

theorem assign_conflict_iff (db : DB) (job_id : Id) (body : AssignBody)
    (hex : ∀ t ∈ body.technician_ids, (findAssoc db.technicians t).isSome = true) :
    resultConflictB (assign_technicians db job_id body).1 = true ↔
      ∃ t ∈ body.technician_ids,
        techAtCapB db (openJobsCountExcl db job_id) t = true := by
  unfold assign_technicians
  rcases checkTechs_cases db (openJobsCountExcl db job_id) body.technician_ids hex with
    ⟨hnone, hall⟩ | ⟨s, hsome, t, ht, hcap⟩
  · rw [hnone]
    by_cases hj : (findAssoc db.jobcards job_id).isSome = true
    · simp only [hj, if_true, resultConflictB, Bool.false_eq_true, false_iff]
      rintro ⟨t, ht, hcap⟩
      rw [hall t ht] at hcap
      cases hcap
    · simp only [Bool.not_eq_true] at hj
      simp only [hj, Bool.false_eq_true, if_false, resultConflictB, false_iff]
      rintro ⟨t, ht, hcap⟩
      rw [hall t ht] at hcap
      cases hcap
  · rw [hsome]
    simp only [resultConflictB, true_iff]
    exact ⟨t, ht, hcap⟩

/-- Claim C4: job card creation (with existing vehicle, customer and
technicians) fails with Conflict exactly when some listed technician's count
of open/in_progress/waiting_parts job cards listing that technician has
reached the technician's capacity (default 3 when the stored capacity
attribute is unset); technician reassignment re-runs the same check with the
job card being modified excluded from the count, so a technician whose only
open assignment is that very job card passes. -/
theorem claim4 :
    (∀ (db : DB) (j : JobCard),
      (findAssoc db.vehicles j.vehicle_id).isSome = true →
      db.customers.contains j.customer_id = true →
      (∀ t ∈ j.technician_ids, (findAssoc db.technicians t).isSome = true) →
      (resultConflictB (create_jobcard db j).1 = true ↔
        ∃ t ∈ j.technician_ids, techAtCapB db (openJobsCount db) t = true)) ∧
    (∀ (db : DB) (job_id : Id) (body : AssignBody),
      (∀ t ∈ body.technician_ids, (findAssoc db.technicians t).isSome = true) →
      (resultConflictB (assign_technicians db job_id body).1 = true ↔
        ∃ t ∈ body.technician_ids,
          techAtCapB db (openJobsCountExcl db job_id) t = true)) ∧
    (∀ (db : DB) (job_id : Id) (tid : Id) (tech : Technician) (prim : Option Id),
      findAssoc db.technicians tid = some tech →
      tech.capacity = none →
      (∀ e ∈ db.jobcards, openStatuses.contains e.2.status = true →
        e.2.technician_ids.contains tid = true → e.1 = job_id) →
      resultConflictB (assign_technicians db job_id ⟨[tid], prim⟩).1 = false) := by
  refine ⟨create_conflict_iff, assign_conflict_iff, ?_⟩
  intro db job_id tid tech prim htech hcap honly
  have hcount : openJobsCountExcl db job_id tid = 0 := by
    unfold openJobsCountExcl
    rw [List.length_eq_zero, List.filter_eq_nil_iff]
    intro e he hp
    simp only [Bool.and_eq_true, bne_iff_ne, ne_eq] at hp
    exact hp.1.1 (honly e he hp.1.2 hp.2)
  have hnotcap : techAtCapB db (openJobsCountExcl db job_id) tid = false := by
    simp only [techAtCapB, htech, hcount]
    unfold capOf
    rw [hcap]
    decide
  cases hb : resultConflictB (assign_technicians db job_id ⟨[tid], prim⟩).1 with
  | false => rfl
  | true =>
    have hiff := assign_conflict_iff db job_id ⟨[tid], prim⟩
      (by intro t ht; simp at ht; subst ht; simp [htech])
    obtain ⟨t, ht, hcap2⟩ := hiff.1 hb
    simp at ht
    subst ht
    rw [hnotcap] at hcap2
    cases hcap2

/-- Claim C4 witness: in dbC4 technician 5 (no stored capacity, so default 3)
already has three open-like job cards, so creating another job card listing
technician 5 fails with Conflict. -/
theorem claim4_witness :
    resultConflictB (create_jobcard dbC4 jcA).1 = true :=
  (claim4.1 dbC4 jcA (by with_unfolding_all decide) (by with_unfolding_all decide)
    (by with_unfolding_all decide)).mpr (by with_unfolding_all decide)

-- --------------------------- Claim C10 ---------------------------

/-- Claim C10: VIN uniqueness on registration is an exact, case-sensitive
match: a second vehicle whose VIN differs from an existing one only in
letter case registers successfully, and afterwards the case-insensitive
substring VIN search returns both records for any query matching the VIN
(stated for a database small enough that the 100-row result cap does not
truncate). -/
theorem claim10 (db : DB) (i : Id) (w : Vehicle) (hmem : (i, w) ∈ db.vehicles)
    (v : VehicleCreate) (hne : v.vin ≠ w.vin) (hlow : v.vin.toLower = w.vin.toLower)
    (hnew : ∀ p ∈ db.vehicles, p.2.vin ≠ v.vin) (hlen : db.vehicles.length < 100) :
    resultOkB (register_vehicle db v).1 = true ∧
    ∀ q : String, ciContains w.vin q = true →
      (i, w) ∈ search_vehicles (register_vehicle db v).2 (some q) ∧
      ∃ nv : Vehicle, (db.nextId, nv) ∈ search_vehicles (register_vehicle db v).2 (some q) ∧
        nv.vin = v.vin ∧ nv.status = "in_stock" := by
  have hfind : db.vehicles.find? (fun p => p.2.vin == v.vin) = none := by
    rw [List.find?_eq_none]
    intro x hx
    simp [hnew x hx]
  have hreg : register_vehicle db v =
      (.ok db.nextId,
        { db with
            vehicles := insertDoc db.vehicles db.nextId (vehicleOf v),
            nextId := db.nextId + 1 }) := by
    simp only [register_vehicle, hfind]
    rfl
  refine ⟨by rw [hreg]; rfl, ?_⟩
  intro q hq
  have hqv : ciContains v.vin q = true := by
    unfold ciContains lowerChars at hq ⊢
    rw [hlow]
    exact hq
  have hsearch : search_vehicles (register_vehicle db v).2 (some q) =
      (db.vehicles ++ [(db.nextId, vehicleOf v)]).filter
        (fun p => vehicleMatch q p.2) := by
    rw [hreg]
    show ((db.vehicles ++ [(db.nextId, vehicleOf v)]).filter
      (fun p => vehicleMatch q p.2)).take 100 = _
    apply List.take_of_length_le
    calc ((db.vehicles ++ [(db.nextId, vehicleOf v)]).filter
        (fun p => vehicleMatch q p.2)).length
        ≤ (db.vehicles ++ [(db.nextId, vehicleOf v)]).length :=
          List.length_filter_le _ _
      _ = db.vehicles.length + 1 := by simp
      _ ≤ 100 := by omega
  rw [hsearch]
  constructor
  · rw [List.mem_filter]
    refine ⟨List.mem_append_left _ hmem, ?_⟩
    simp [vehicleMatch, hq]
  · refine ⟨vehicleOf v, ?_, rfl, rfl⟩
    rw [List.mem_filter]
    refine ⟨List.mem_append_right _ (by simp), ?_⟩
    simp [vehicleMatch, vehicleOf, hqv]

/-- Claim C10 witness: with "ABCDE" registered, registering VIN "abcde"
succeeds, and a search for "bcd" returns both vehicles. -/
theorem claim10_witness :
    resultOkB (register_vehicle dbC10 vcC10).1 = true ∧
    (1, vehA) ∈ search_vehicles (register_vehicle dbC10 vcC10).2 (some "bcd") ∧
    ∃ nv : Vehicle, (dbC10.nextId, nv) ∈
        search_vehicles (register_vehicle dbC10 vcC10).2 (some "bcd") ∧
      nv.vin = vcC10.vin ∧ nv.status = "in_stock" := by
  have h := claim10 dbC10 1 vehA (by with_unfolding_all decide) vcC10
    (by with_unfolding_all decide) (by with_unfolding_all decide)
    (by with_unfolding_all decide) (by with_unfolding_all decide)
  exact ⟨h.1, (h.2 "bcd" (by with_unfolding_all decide)).1,
    (h.2 "bcd" (by with_unfolding_all decide)).2⟩

end DMS
